import Mathlib

/-!
# Verification of the Kroma zkTrie → MPT state-migration tool

A shallow embedding of the migration tool found in `cmd/migration`:
the standalone follower-style migrator (`part_000`: `start`,
`migrateAccount`, `migrateStorage`, `checkHashCollision`, `readPreimage`,
`applyNewStateTransition`, `updateAccount`, `encodeToRlp`, `commit`) and the
one-shot migrator (`state_migrator.go`: `migrateAccount`, `migrateStorage`,
`readPreimage`, `migrateHeadAndGenesis`), plus the RPC client (`chain.go`)
and the `must`/`must1` panic helpers (`must.go`).

Bytes are `List Nat` (each entry is one byte value), hashes are `Nat`
(an abstract stand-in for 32-byte hash words wherever the byte structure of
the hash does not matter).  Library collaborators (go-ethereum `common`,
`rlp`, `rawdb`, the trie libraries) are embedded from their documented,
stable behaviour where a claim depends on them; each such definition says
so in its doc comment.
-/

namespace StateMigration

/-- One byte, as a natural number; a byte string is a `List Nat`. -/
abbrev Bytes := List Nat

/-! ## go-ethereum `common` byte helpers

`encodeToRlp` in `part_000` is
`rlp.EncodeToBytes(common.TrimLeftZeroes(common.BytesToHash(bytes).Bytes()))`.
We embed the three collaborators it composes. -/

/-- `common.TrimLeftZeroes`: drop the leading zero bytes of `s`
(`for idx < len(s) && s[idx] == 0 { idx++ }; return s[idx:]`). -/
def trimLeftZeroes : Bytes → Bytes
  | [] => []
  | b :: rest => if b = 0 then trimLeftZeroes rest else b :: rest

/-- `common.BytesToHash(b).Bytes()` = `Hash.SetBytes` semantics: if the input
is longer than 32 bytes keep only its last 32 bytes, then copy it
right-aligned into a zeroed 32-byte array (left-padding with zero bytes). -/
def bytesToHash (b : Bytes) : Bytes :=
  let tail := if b.length > 32 then b.drop (b.length - 32) else b
  List.replicate (32 - tail.length) 0 ++ tail

/-- Big-endian base-256 digits of `n`, no leading zero byte (`putint`). -/
def natToBytesBE (n : Nat) : Bytes :=
  if hn : n = 0 then [] else
    have : n / 256 < n := Nat.div_lt_self (Nat.pos_of_ne_zero hn) (by decide)
    natToBytesBE (n / 256) ++ [n % 256]
termination_by n

/-- `rlp.EncodeToBytes` on a byte string: a single byte below `0x80` encodes
as itself; a string of up to 55 bytes gets the one-byte header `0x80+len`;
a longer string gets header `0xb7+len(len)` followed by the big-endian
length. -/
def rlpEncodeBytes (b : Bytes) : Bytes :=
  match b with
  | [x] => if x < 128 then [x] else [129, x]
  | _ =>
    if b.length ≤ 55 then (128 + b.length) :: b
    else
      let lenBytes := natToBytesBE b.length
      ((183 + lenBytes.length) :: lenBytes) ++ b

/-- `encodeToRlp` (`part_000`):
`trimmed := common.TrimLeftZeroes(common.BytesToHash(bytes).Bytes());`
`encoded, _ := rlp.EncodeToBytes(trimmed); return encoded`. -/
def encodeToRlp (bytes : Bytes) : Bytes :=
  rlpEncodeBytes (trimLeftZeroes (bytesToHash bytes))

/-! ## Spec-side byte normalisation

Written from the words of the claims, to be compared with `bytesToHash`:
"left-padding shorter inputs with zero bytes and keeping only the last 32
bytes of longer inputs". -/

/-- The last `n` bytes of `b` (all of `b` when it is shorter than `n`). -/
def lastBytes (n : Nat) (b : Bytes) : Bytes :=
  (b.reverse.take n).reverse

/-- Left-pad `b` with zero bytes to 32 bytes (identity beyond 32). -/
def leftPad32 (b : Bytes) : Bytes :=
  List.replicate (32 - b.length) 0 ++ b

theorem lastBytes_eq_drop (n : Nat) (b : Bytes) :
    lastBytes n b = b.drop (b.length - n) := by
  unfold lastBytes
  rw [List.reverse_take]
  simp

theorem bytesToHash_eq_pad_last (b : Bytes) :
    bytesToHash b = leftPad32 (lastBytes 32 b) := by
  unfold bytesToHash leftPad32
  rw [lastBytes_eq_drop]
  by_cases h : b.length > 32
  · have h32 : b.length - (b.length - 32) = 32 := by omega
    simp [h, List.length_drop, h32]
  · have h32 : b.length - 32 = 0 := Nat.sub_eq_zero_of_le (Nat.le_of_not_lt h)
    simp [h, h32]

theorem bytesToHash_length (b : Bytes) : (bytesToHash b).length = 32 := by
  unfold bytesToHash
  by_cases h : b.length > 32
  · have hd : (b.drop (b.length - 32)).length = 32 := by
      rw [List.length_drop]
      omega
    simp [h, hd]
  · have hb : b.length ≤ 32 := Nat.le_of_not_lt h
    simp [h]
    omega

/-! ## The storage-migration loops

`part_000`'s `migrateStorage` writes `(slot, encodeToRlp(it.LeafBlob()))` for
every leaf of the source storage zkTrie (after resolving `slot` through
`readPreimage`; for the hard-coded devnet address `0x42…70` an unresolvable
slot is skipped instead of failing).  `state_migrator.go`'s `migrateStorage`
writes `(slot, zkStorageIt.LeafBlob())` — the raw leaf blob, with no RLP
re-encoding.  Both loops are embedded over the sequence of `(leafKey,
leafBlob)` pairs the zkTrie iterator yields, producing the list of
`(slot, value)` pairs handed to `mpt.UpdateStorage` (the MPT library then
stores each value under `Keccak(slot)`). -/

/-- The `(slot, value)` writes of `part_000.migrateStorage`'s leaf loop:
value `encodeToRlp leafBlob`; an unresolvable leaf key is fatal unless
`devnetSkip` (the `0x4200…0070` workaround) is set, in which case the leaf
is skipped. -/
def migrateStorageWrites (resolve : Bytes → Except String Bytes)
    (devnetSkip : Bool) : List (Bytes × Bytes) → Except String (List (Bytes × Bytes))
  | [] => .ok []
  | (leafKey, leafBlob) :: rest =>
    match resolve leafKey with
    | .ok slot =>
      (migrateStorageWrites resolve devnetSkip rest).map
        (fun ws => (slot, encodeToRlp leafBlob) :: ws)
    | .error e =>
      if devnetSkip then migrateStorageWrites resolve devnetSkip rest
      else .error e

/-- The `(slot, value)` writes of `state_migrator.go`'s `migrateStorage` leaf
loop: value `zkStorageIt.LeafBlob()` verbatim; a missing preimage is always
fatal (`readPreimage` panics there). -/
def migrateStorageWritesOneShot (resolve : Bytes → Except String Bytes) :
    List (Bytes × Bytes) → Except String (List (Bytes × Bytes))
  | [] => .ok []
  | (leafKey, leafBlob) :: rest =>
    match resolve leafKey with
    | .ok slot =>
      (migrateStorageWritesOneShot resolve rest).map
        (fun ws => (slot, leafBlob) :: ws)
    | .error e => .error e

/-- The MPT value `part_000.updateAccount` writes for one storage entry of a
block delta: `encodeToRlp([]byte(value.(string)))` — the argument is the
UTF-8 bytes of the JSON hex string itself (the string is not hex-decoded). -/
def updateAccountStorageValue (valueStringBytes : Bytes) : Bytes :=
  encodeToRlp valueStringBytes

/-! ## `migrateStorage` as a run with an event trace (for the empty-root
short cut).

Constants `types.GetEmptyRootHash(true)` (the empty zkTrie root) and
`types.EmptyRootHash` (the empty MPT root) are distinct 32-byte library
constants; they are embedded as distinct abstract hash values. -/

/-- The empty zkTrie root, `types.GetEmptyRootHash(true)` (abstract value). -/
def emptyZkRootHash : Nat := 1

/-- The empty MPT root, `types.EmptyRootHash` (abstract value). -/
def emptyRootHash : Nat := 2

/-- The devnet contract `0x4200000000000000000000000000000000000070` whose
unresolvable slots `part_000.migrateStorage` skips (abstract value). -/
def devnetWorkaroundAddress : Nat := 66

/-- What `migrateStorage` does to the backing store. -/
inductive StorageEvent
  | openIterator (root : Nat)
  | write (slot : Bytes) (value : Bytes)
  | guardRun
  | commitRun
deriving Repr, DecidableEq

/-- `part_000.migrateStorage`: return the empty MPT root at once on the empty
zkTrie root; otherwise open the zkTrie iterator, write every resolved leaf as
`(slot, encodeToRlp blob)`, run `checkHashCollision`, commit.
`committedRoot` abstracts the root `m.commit(mpt)` returns. -/
def migrateStorage (resolve : Bytes → Except String Bytes) (address : Nat)
    (zkStorageRoot : Nat) (leaves : List (Bytes × Bytes)) (committedRoot : Nat) :
    Except String (Nat × List StorageEvent) :=
  if zkStorageRoot = emptyZkRootHash then .ok (emptyRootHash, [])
  else
    match migrateStorageWrites resolve (address = devnetWorkaroundAddress) leaves with
    | .error e => .error e
    | .ok ws =>
      .ok (committedRoot,
        StorageEvent.openIterator zkStorageRoot ::
          ws.map (fun p => StorageEvent.write p.1 p.2) ++
            [StorageEvent.guardRun, StorageEvent.commitRun])

/-- `state_migrator.go`'s `migrateStorage`: same empty-root short cut, raw
leaf blobs as values, and no collision-guard step before the commit. -/
def migrateStorageOneShot (resolve : Bytes → Except String Bytes)
    (zkStorageRoot : Nat) (leaves : List (Bytes × Bytes)) (committedRoot : Nat) :
    Except String (Nat × List StorageEvent) :=
  if zkStorageRoot = emptyZkRootHash then .ok (emptyRootHash, [])
  else
    match migrateStorageWritesOneShot resolve leaves with
    | .error e => .error e
    | .ok ws =>
      .ok (committedRoot,
        StorageEvent.openIterator zkStorageRoot ::
          ws.map (fun p => StorageEvent.write p.1 p.2) ++ [StorageEvent.commitRun])

/-! ## Claims C10, C9, C1 -/

/-- C10: for every byte string `b`, `encodeToRlp b` first normalizes `b` to a
fixed 32-byte word — left-padding shorter inputs with zero bytes and keeping
only the last 32 bytes of longer inputs — before stripping leading zeros and
RLP-encoding; hence every storage value written through `encodeToRlp` depends
only on the last 32 bytes of the input value. -/
theorem encodeToRlp_normalizes_to_word :
    (∀ b : Bytes, (bytesToHash b).length = 32) ∧
    (∀ b : Bytes, bytesToHash b = leftPad32 (lastBytes 32 b)) ∧
    (∀ b : Bytes,
      encodeToRlp b = rlpEncodeBytes (trimLeftZeroes (leftPad32 (lastBytes 32 b)))) ∧
    (∀ b₁ b₂ : Bytes, lastBytes 32 b₁ = lastBytes 32 b₂ →
      encodeToRlp b₁ = encodeToRlp b₂) := by
  have henc : ∀ b : Bytes,
      encodeToRlp b = rlpEncodeBytes (trimLeftZeroes (leftPad32 (lastBytes 32 b))) := by
    intro b
    unfold encodeToRlp
    rw [bytesToHash_eq_pad_last]
  refine ⟨bytesToHash_length, bytesToHash_eq_pad_last, henc, ?_⟩
  intro b₁ b₂ h
  rw [henc b₁, henc b₂, h]

/-- Witness for C10 at a concrete input: a 33-byte and a 32-byte string with
the same last 32 bytes get the same encoding. -/
theorem encodeToRlp_normalizes_to_word_witness :
    lastBytes 32 (List.replicate 33 7) = lastBytes 32 (List.replicate 32 7) ∧
    encodeToRlp (List.replicate 33 7) = encodeToRlp (List.replicate 32 7) :=
  ⟨by decide, encodeToRlp_normalizes_to_word.2.2.2 _ _ (by decide)⟩

/-- C9: for every address and every leaf set, `migrateStorage` (both the
follower-style and the one-shot variant) applied to the empty zkTrie root
returns the empty MPT root with an empty event trace — no iterator opened,
nothing written, nothing committed. -/
theorem migrateStorage_empty_root_identity :
    ∀ (resolve : Bytes → Except String Bytes) (address : Nat)
      (leaves : List (Bytes × Bytes)) (committedRoot : Nat),
      migrateStorage resolve address emptyZkRootHash leaves committedRoot
          = .ok (emptyRootHash, []) ∧
      migrateStorageOneShot resolve emptyZkRootHash leaves committedRoot
          = .ok (emptyRootHash, []) := by
  intro resolve address leaves committedRoot
  exact ⟨by simp [migrateStorage], by simp [migrateStorageOneShot]⟩

/-- C1 fails on the code: `state_migrator.go`'s `migrateStorage` writes the
raw 32-byte leaf blob `0x00…01` verbatim (not its trimmed RLP encoding
`0x01`), and the delta path (`part_000.updateAccount`) RLP-encodes the ASCII
bytes of the JSON hex string `"0xFEED"` (`0x86 30 78 46 45 45 44`) instead of
the slot value `0xFEED` (`0x82 FE ED`). -/
theorem migrateStorage_rawBlob_and_asciiDelta_bug :
    migrateStorageWritesOneShot
        (fun k => if k = [1] then .ok [9] else .error "missing")
        [([1], List.replicate 31 0 ++ [1])]
      = .ok [([9], List.replicate 31 0 ++ [1])] ∧
    encodeToRlp (List.replicate 31 0 ++ [1]) = [1] ∧
    (List.replicate 31 0 ++ [1] : Bytes) ≠ [1] ∧
    updateAccountStorageValue [48, 120, 70, 69, 69, 68]
      = [134, 48, 120, 70, 69, 69, 68] ∧
    rlpEncodeBytes (trimLeftZeroes [254, 237]) = [130, 254, 237] ∧
    updateAccountStorageValue [48, 120, 70, 69, 69, 68]
      ≠ rlpEncodeBytes (trimLeftZeroes [254, 237]) := by
  refine ⟨rfl, by decide, by decide, by decide, by decide, by decide⟩

/-- The follower-style loop (`part_000.migrateStorage`) does satisfy C1's
value encoding: every write it emits carries `encodeToRlp` of some visited
leaf blob, whose key resolved to the written slot. -/
theorem migrateStorageWrites_values_encoded :
    ∀ (resolve : Bytes → Except String Bytes) (devnetSkip : Bool)
      (leaves : List (Bytes × Bytes)) (ws : List (Bytes × Bytes)),
      migrateStorageWrites resolve devnetSkip leaves = .ok ws →
      ∀ p ∈ ws, ∃ q ∈ leaves, resolve q.1 = .ok p.1 ∧ p.2 = encodeToRlp q.2 := by
  intro resolve devnetSkip leaves
  induction leaves with
  | nil =>
    intro ws hws p hp
    simp only [migrateStorageWrites] at hws
    injection hws with h
    subst h
    simp at hp
  | cons q rest ih =>
    intro ws hws p hp
    obtain ⟨leafKey, leafBlob⟩ := q
    cases hres : resolve leafKey with
    | ok slot =>
      cases hrest : migrateStorageWrites resolve devnetSkip rest with
      | ok ws' =>
        simp only [migrateStorageWrites, hres, hrest, Except.map] at hws
        injection hws with h
        subst h
        rw [List.mem_cons] at hp
        rcases hp with hp | hp
        · subst hp
          exact ⟨(leafKey, leafBlob), by simp, hres, rfl⟩
        · obtain ⟨q', hq', hq's⟩ := ih ws' hrest p hp
          exact ⟨q', List.mem_cons_of_mem _ hq', hq's⟩
      | error e =>
        simp only [migrateStorageWrites, hres, hrest, Except.map] at hws
        cases hws
    | error e =>
      simp only [migrateStorageWrites, hres] at hws
      split at hws
      · obtain ⟨q', hq', hq's⟩ := ih ws hws p hp
        exact ⟨q', List.mem_cons_of_mem _ hq', hq's⟩
      · cases hws

/-! ## The preimage oracle (`readPreimage`)

`part_000.readPreimage`: genesis address map, then genesis storage map, then
the trie database's preimage index, whose candidate bytes are accepted only
when `zk.MustNewSecureHash` of them re-hashes to the queried key hash
(the Go code compares the two 32-byte hashes by their hex strings, which is
hash equality).  `m.zkdb.Preimage` returns `nil` (here `[]`) when the index
has no entry; `zk.MustNewSecureHash` is total on the candidate bytes. -/

/-- The three preimage sources and the zkTrie secure-hash function. -/
structure PreimageOracle where
  genesisAccount : Nat → Option Bytes
  genesisStorage : Nat → Option Bytes
  preimageIndex : Nat → Bytes
  secureHash : Bytes → Nat

/-- `part_000.readPreimage` (the `state_migrator.go` variant is identical
except that it panics where this one returns the error). -/
def readPreimage (m : PreimageOracle) (keyHash : Nat) : Except String Bytes :=
  match m.genesisAccount keyHash with
  | some addr => .ok addr
  | none =>
    match m.genesisStorage keyHash with
    | some slot => .ok slot
    | none =>
      let preimage := m.preimageIndex keyHash
      if m.secureHash preimage = keyHash then .ok preimage
      else .error "preimage does not exist"

/-! ## The hash-collision guard (`checkHashCollision`)

`part_000.checkHashCollision` walks the node iterator of the freshly built
MPT (`it.Next(true)`, descending into children) and, **only at leaf
positions** (`if !it.Leaf() { continue }`), fetches `db.Get(it.Hash())`;
nonempty bytes that parse as a zkTrie node (`zk.NewTreeNodeFromBlob`) are a
fatal collision.  The walk is embedded as the list of iterator positions. -/

/-- One position of the MPT node iterator: whether it is a leaf position and
the node hash it reports. -/
structure NodePos where
  leaf : Bool
  hash : Nat
deriving Repr, DecidableEq

/-- `part_000.checkHashCollision`, `true` = panic ("Hash collision
detected").  `dbGet h` is `m.db.Get(h)` (`[]` = absent) and `isZkNode d` is
whether `zk.NewTreeNodeFromBlob(d)` succeeds. -/
def checkHashCollision (dbGet : Nat → Bytes) (isZkNode : Bytes → Bool) :
    List NodePos → Bool
  | [] => false
  | p :: rest =>
    if !p.leaf then checkHashCollision dbGet isZkNode rest
    else
      let data := dbGet p.hash
      if data.length = 0 then checkHashCollision dbGet isZkNode rest
      else if isZkNode data then true
      else checkHashCollision dbGet isZkNode rest

/-! ## Claims C2 and C3 -/

/-- C2: `readPreimage` consults the genesis-address map, then the
genesis-storage map, then the preimage index, in that order; index bytes are
returned only if their recomputed secure hash is the queried key hash, and
when no source matches the lookup reports missing (an error) rather than
returning unverified bytes. -/
theorem readPreimage_order_and_verification :
    ∀ (m : PreimageOracle) (keyHash : Nat),
      (∀ a, m.genesisAccount keyHash = some a → readPreimage m keyHash = .ok a) ∧
      (∀ s, m.genesisAccount keyHash = none → m.genesisStorage keyHash = some s →
        readPreimage m keyHash = .ok s) ∧
      (m.genesisAccount keyHash = none → m.genesisStorage keyHash = none →
        m.secureHash (m.preimageIndex keyHash) = keyHash →
        readPreimage m keyHash = .ok (m.preimageIndex keyHash)) ∧
      (m.genesisAccount keyHash = none → m.genesisStorage keyHash = none →
        m.secureHash (m.preimageIndex keyHash) ≠ keyHash →
        readPreimage m keyHash = .error "preimage does not exist") ∧
      (∀ b, readPreimage m keyHash = .ok b →
        m.genesisAccount keyHash = some b ∨
        (m.genesisAccount keyHash = none ∧ m.genesisStorage keyHash = some b) ∨
        (m.genesisAccount keyHash = none ∧ m.genesisStorage keyHash = none ∧
          b = m.preimageIndex keyHash ∧ m.secureHash b = keyHash)) := by
  intro m keyHash
  refine ⟨?_, ?_, ?_, ?_, ?_⟩
  · intro a ha; simp [readPreimage, ha]
  · intro s ha hs; simp [readPreimage, ha, hs]
  · intro ha hs hv; simp [readPreimage, ha, hs, hv]
  · intro ha hs hv; simp [readPreimage, ha, hs, hv]
  · intro b hb
    cases ha : m.genesisAccount keyHash with
    | some a =>
      simp only [readPreimage, ha] at hb
      injection hb with h
      exact Or.inl (congrArg some h)
    | none =>
      cases hs : m.genesisStorage keyHash with
      | some s =>
        simp only [readPreimage, ha, hs] at hb
        injection hb with h
        exact Or.inr (Or.inl ⟨rfl, congrArg some h⟩)
      | none =>
        simp only [readPreimage, ha, hs] at hb
        by_cases hv : m.secureHash (m.preimageIndex keyHash) = keyHash
        · rw [if_pos hv] at hb
          injection hb with h
          exact Or.inr (Or.inr ⟨rfl, rfl, h.symm, h ▸ hv⟩)
        · rw [if_neg hv] at hb
          cases hb

/-- Witness for C2 on a concrete oracle: a key served (verified) by the
preimage index, and a key no source can serve. -/
theorem readPreimage_order_witness :
    readPreimage
        { genesisAccount := fun h => if h = 1 then some [10, 11] else none
          genesisStorage := fun h => if h = 2 then some [20] else none
          preimageIndex := fun h => if h = 3 then [30] else []
          secureHash := fun b => if b = [30] then 3 else 0 }
        3 = .ok [30] ∧
    readPreimage
        { genesisAccount := fun h => if h = 1 then some [10, 11] else none
          genesisStorage := fun h => if h = 2 then some [20] else none
          preimageIndex := fun h => if h = 3 then [30] else []
          secureHash := fun b => if b = [30] then 3 else 0 }
        4 = .error "preimage does not exist" := by
  constructor
  · exact (readPreimage_order_and_verification _ 3).2.2.1 rfl rfl rfl
  · exact (readPreimage_order_and_verification _ 4).2.2.2.1 rfl rfl (by decide)

/-- C3 fails on the code: `checkHashCollision` skips every non-leaf iterator
position, so a zkTrie node sitting in the backing store at an internal node
hash of the committed MPT is not detected.  Here the single position has
hash `1`, the store holds `[5]` there, `[5]` parses as a zkTrie node, yet the
guard does not abort. -/
theorem checkHashCollision_skips_internal_nodes_cex :
    checkHashCollision (fun h => if h = 1 then [5] else [])
        (fun d => d = [5]) [{ leaf := false, hash := 1 }] = false ∧
    (fun d : Bytes => decide (d = [5])) ((fun h => if h = 1 then [5] else ([] : Bytes)) 1) = true ∧
    ((fun h => if h = 1 then [5] else ([] : Bytes)) 1).length ≠ 0 := by
  refine ⟨rfl, by decide, by decide⟩

/-- C3 amended: the guard aborts exactly when some **leaf** position's node
hash holds nonempty store bytes that parse as a zkTrie node; non-leaf
positions are never probed.  (Additionally, the one-shot migrator variant
`migrateStorageOneShot` runs no guard step at all — its trace never contains
`guardRun`.) -/
theorem checkHashCollision_leaf_characterization :
    ∀ (dbGet : Nat → Bytes) (isZkNode : Bytes → Bool) (ps : List NodePos),
      (checkHashCollision dbGet isZkNode ps = true ↔
        ∃ p, p ∈ ps ∧ p.leaf = true ∧ 0 < (dbGet p.hash).length ∧
          isZkNode (dbGet p.hash) = true) := by
  intro dbGet isZkNode ps
  induction ps with
  | nil => simp [checkHashCollision]
  | cons p rest ih =>
    by_cases hleaf : p.leaf = true
    · by_cases hempty : (dbGet p.hash).length = 0
      · have : checkHashCollision dbGet isZkNode (p :: rest) =
            checkHashCollision dbGet isZkNode rest := by
          simp [checkHashCollision, hleaf, hempty]
        rw [this, ih]
        constructor
        · rintro ⟨q, hq, hqs⟩
          exact ⟨q, List.mem_cons_of_mem _ hq, hqs⟩
        · rintro ⟨q, hq, hql, hqd, hqz⟩
          rw [List.mem_cons] at hq
          rcases hq with hq | hq
          · subst hq; omega
          · exact ⟨q, hq, hql, hqd, hqz⟩
      · by_cases hzk : isZkNode (dbGet p.hash) = true
        · have : checkHashCollision dbGet isZkNode (p :: rest) = true := by
            simp [checkHashCollision, hleaf, hempty, hzk]
          rw [this]
          simp only [true_iff]
          exact ⟨p, List.mem_cons_self _ _, hleaf, Nat.pos_of_ne_zero hempty, hzk⟩
        · have : checkHashCollision dbGet isZkNode (p :: rest) =
              checkHashCollision dbGet isZkNode rest := by
            simp [checkHashCollision, hleaf, hempty, hzk]
          rw [this, ih]
          constructor
          · rintro ⟨q, hq, hqs⟩
            exact ⟨q, List.mem_cons_of_mem _ hq, hqs⟩
          · rintro ⟨q, hq, hql, hqd, hqz⟩
            rw [List.mem_cons] at hq
            rcases hq with hq | hq
            · subst hq
              rw [Bool.not_eq_true] at hzk
              rw [hqz] at hzk
              cases hzk
            · exact ⟨q, hq, hql, hqd, hqz⟩
    · have : checkHashCollision dbGet isZkNode (p :: rest) =
          checkHashCollision dbGet isZkNode rest := by
        simp [checkHashCollision, hleaf]
      rw [this, ih]
      constructor
      · rintro ⟨q, hq, hqs⟩
        exact ⟨q, List.mem_cons_of_mem _ hq, hqs⟩
      · rintro ⟨q, hq, hql, hqd, hqz⟩
        rw [List.mem_cons] at hq
        rcases hq with hq | hq
        · subst hq
          rw [Bool.not_eq_true] at hleaf
          rw [hql] at hleaf
          cases hleaf
        · exact ⟨q, hq, hql, hqd, hqz⟩

/-! ## The state-diff follower (`start` / `applyNewStateTransition`)

`part_000.start` loops: `applyNewStateTransition(*root)`; a `nil` result
(cursor beyond head) sleeps 2 seconds; a non-nil result is persisted under
the `"migration-root"` key and becomes the new cursor.
`applyNewStateTransition` polls `eth_blockNumber`; when `root.Number` is at
most the head it opens the MPT at `root.Hash`, applies every account delta
of `debug_traceBlockByNumber(root.Number)`, and runs `m.commit` (trie
commit, `mptdb.Update` node-set merge, `mptdb.Commit`), returning
`{commit-root, root.Number + 1}`. -/

/-- The `migrationRoot` checkpoint record (`{hash, number}`). -/
structure migrationRoot where
  hash : Nat
  number : Nat
deriving Repr, DecidableEq

/-- The persistent effects of one follower iteration, in order. -/
inductive FollowEvent
  | updateAccount (address : Nat)
  | trieCommit
  | dbUpdate
  | dbCommit
  | putCheckpoint (hash : Nat) (number : Nat)
deriving Repr, DecidableEq

/-- `part_000.commit`: `mpt.Commit(true)`, then `mptdb.Update` (node-set
merge), then `mptdb.Commit` — as an event sequence. -/
def commitEvents : List FollowEvent :=
  [FollowEvent.trieCommit, FollowEvent.dbUpdate, FollowEvent.dbCommit]

/-- `part_000.applyNewStateTransition`, given the head block number already
fetched, the addresses of the block's post-state deltas, and the root the
commit produces: `none` when the cursor is beyond the head, otherwise the
advanced checkpoint, together with the events run. -/
def applyNewStateTransition (headBlockNumber : Nat) (root : migrationRoot)
    (deltaAddresses : List Nat) (committedRoot : Nat) :
    Option migrationRoot × List FollowEvent :=
  if root.number ≤ headBlockNumber then
    (some { hash := committedRoot, number := root.number + 1 },
      deltaAddresses.map FollowEvent.updateAccount ++ commitEvents)
  else (none, [])

/-- What one pass of `part_000.start`'s loop body ends in. -/
inductive IterOutcome
  | slept
  | advanced (next : migrationRoot)
deriving Repr, DecidableEq

/-- One iteration of `part_000.start`'s loop: on a non-nil result of
`applyNewStateTransition`, the checkpoint is written (`db.Put` of
`"migration-root"`) after all of its events. -/
def followerIteration (headBlockNumber : Nat) (root : migrationRoot)
    (deltaAddresses : List Nat) (committedRoot : Nat) :
    IterOutcome × List FollowEvent :=
  match applyNewStateTransition headBlockNumber root deltaAddresses committedRoot with
  | (none, events) => (IterOutcome.slept, events)
  | (some next, events) =>
    (IterOutcome.advanced next,
      events ++ [FollowEvent.putCheckpoint next.hash next.number])

/-! ## The RPC layer and `must1` (for the network-error claim)

`httpClient.eth_blockNumber` and `httpClient.debug_traceBlockByNumber`
(`chain.go`) wrap every transport and JSON-RPC result in `must1`/`must`
(`must.go`), which panic on any error; `start` installs no recover, so such
a panic terminates the process.  A follower step is embedded over the raw
outcomes of the two RPC calls. -/

/-- `must1`: propagate the value, panic (fatal) on an error. -/
def must1 {α : Type} : Except String α → Except String α := fun e => e

/-- How one follower step ends when the RPC layer may fail:
`fatal` = a `must`/`must1` panic unwinds and kills the process. -/
inductive StepOutcome
  | fatal (e : String)
  | sleepRetry (root : migrationRoot)
  | advanced (next : migrationRoot)
deriving Repr, DecidableEq

/-- One pass of `part_000.start`'s loop with fallible RPC:
`eth_blockNumber` first (its error panics via `must1`); when caught up
(`root.Number > head`) sleep 2 s and retry with the same cursor; otherwise
`debug_traceBlockByNumber` (its error also panics), then commit and
advance. -/
def followerStep (blockNumberResp : Except String Nat)
    (traceResp : Except String (List Nat)) (root : migrationRoot)
    (committedRoot : Nat) : StepOutcome :=
  match must1 blockNumberResp with
  | .error e => .fatal e
  | .ok headBlockNumber =>
    if root.number ≤ headBlockNumber then
      match must1 traceResp with
      | .error e => .fatal e
      | .ok _deltas =>
        .advanced { hash := committedRoot, number := root.number + 1 }
    else .sleepRetry root

/-! ## The startup decision (`start`'s checkpoint read)

`part_000.start` reads `"migration-root"` with the `db.Get` error discarded,
attempts `json.Unmarshal` only on nonempty bytes (a failure merely prints
"invalid migration-root format"), and runs the initial `migrateAccount`
exactly when the resulting pointer is still nil. -/

/-- What `start` does before entering the follower loop. -/
inductive StartAction
  | runInitialMigration
  | resume (root : migrationRoot)
deriving Repr, DecidableEq

/-- The startup decision of `part_000.start`: `storedBytes` is what `db.Get`
returned (`[]` for absent — a read error is discarded into the same case),
`parse` is `json.Unmarshal` into a `*migrationRoot` (`none` = parse
failure). -/
def startDecision (storedBytes : Bytes)
    (parse : Bytes → Option migrationRoot) : StartAction :=
  let root := if storedBytes.length > 0 then parse storedBytes else none
  match root with
  | none => StartAction.runInitialMigration
  | some r => StartAction.resume r

/-! ## Claims C5, C7, C8 -/

/-- C5: a successful follower iteration (cursor at most head) runs the
account updates, then the trie commit, the node-set merge and the database
commit, and persists the checkpoint strictly after them, as the last event;
the persisted number is exactly the previous number plus one. -/
theorem followerIteration_commit_before_checkpoint
    (headBlockNumber : Nat) (root : migrationRoot) (deltaAddresses : List Nat)
    (committedRoot : Nat) (h : root.number ≤ headBlockNumber) :
    followerIteration headBlockNumber root deltaAddresses committedRoot =
      (IterOutcome.advanced { hash := committedRoot, number := root.number + 1 },
        deltaAddresses.map FollowEvent.updateAccount ++
          [FollowEvent.trieCommit, FollowEvent.dbUpdate, FollowEvent.dbCommit,
            FollowEvent.putCheckpoint committedRoot (root.number + 1)]) := by
  simp [followerIteration, applyNewStateTransition, h, commitEvents]

/-- Witness for C5 at a concrete input: cursor 3, head 5, two delta
accounts. -/
theorem followerIteration_commit_before_checkpoint_witness :
    followerIteration 5 { hash := 9, number := 3 } [21, 22] 7 =
      (IterOutcome.advanced { hash := 7, number := 4 },
        [FollowEvent.updateAccount 21, FollowEvent.updateAccount 22,
          FollowEvent.trieCommit, FollowEvent.dbUpdate, FollowEvent.dbCommit,
          FollowEvent.putCheckpoint 7 4]) :=
  followerIteration_commit_before_checkpoint 5 { hash := 9, number := 3 }
    [21, 22] 7 (by decide)

/-- C7 fails on the code: a network error on `eth_blockNumber` is not
retried — `must1` panics and the follower step is fatal, not a 2-second
sleep-and-retry. -/
theorem followerStep_network_error_fatal_cex :
    followerStep (.error "connection refused") (.ok [])
        { hash := 0, number := 0 } 0
      = StepOutcome.fatal "connection refused" ∧
    followerStep (.error "connection refused") (.ok [])
        { hash := 0, number := 0 } 0
      ≠ StepOutcome.sleepRetry { hash := 0, number := 0 } := by
  exact ⟨rfl, by decide⟩

/-- C7 amended: an RPC error on `eth_blockNumber` or
`debug_traceBlockByNumber` aborts the migration (a `must1` panic); only the
caught-up condition (head below the cursor) takes the 2-second
sleep-and-retry path. -/
theorem followerStep_network_error_aborts :
    ∀ (e : String) (traceResp : Except String (List Nat))
      (root : migrationRoot) (committedRoot : Nat),
      followerStep (.error e) traceResp root committedRoot
          = StepOutcome.fatal e ∧
      (∀ headBlockNumber, root.number ≤ headBlockNumber →
        followerStep (.ok headBlockNumber) (.error e) root committedRoot
            = StepOutcome.fatal e) ∧
      (∀ headBlockNumber, headBlockNumber < root.number →
        followerStep (.ok headBlockNumber) traceResp root committedRoot
            = StepOutcome.sleepRetry root) := by
  intro e traceResp root committedRoot
  refine ⟨rfl, ?_, ?_⟩
  · intro headBlockNumber hle
    simp [followerStep, must1, hle]
  · intro headBlockNumber hlt
    have : ¬ root.number ≤ headBlockNumber := Nat.not_le_of_lt hlt
    simp [followerStep, must1, this]

/-- Witness for C7 (amended) at concrete inputs. -/
theorem followerStep_network_error_aborts_witness :
    followerStep (.error "timeout") (.ok []) { hash := 1, number := 4 } 2
        = StepOutcome.fatal "timeout" ∧
    followerStep (.ok 4) (.error "timeout") { hash := 1, number := 4 } 2
        = StepOutcome.fatal "timeout" ∧
    followerStep (.ok 3) (.ok []) { hash := 1, number := 4 } 2
        = StepOutcome.sleepRetry { hash := 1, number := 4 } := by
  obtain ⟨h1, h2, h3⟩ :=
    followerStep_network_error_aborts "timeout" (.ok []) { hash := 1, number := 4 } 2
  exact ⟨h1, h2 4 (by decide), h3 3 (by decide)⟩

/-- C8 fails on the code: a present but unparsable checkpoint is not fatal —
`start` merely logs "invalid migration-root format" and runs the initial
account migration (here: stored bytes `[123]`, a parser that rejects them,
and the decision is `runInitialMigration`, not an abort). -/
theorem startDecision_unparsable_runs_initial_cex :
    startDecision [123] (fun _ => none) = StartAction.runInitialMigration ∧
    ([123] : Bytes).length > 0 ∧
    (fun _ : Bytes => (none : Option migrationRoot)) [123] = none := by
  exact ⟨rfl, by decide, rfl⟩

/-- C8 amended: a present, parsable checkpoint resumes the follower at the
stored record and skips the initial migration; the initial migration runs
exactly when the key is absent (or the read errored, leaving no bytes) or
the stored bytes fail to parse — a parse failure is logged, never fatal. -/
theorem startDecision_characterization :
    ∀ (storedBytes : Bytes) (parse : Bytes → Option migrationRoot),
      (∀ r, storedBytes.length > 0 → parse storedBytes = some r →
        startDecision storedBytes parse = StartAction.resume r) ∧
      (storedBytes.length = 0 →
        startDecision storedBytes parse = StartAction.runInitialMigration) ∧
      (parse storedBytes = none →
        startDecision storedBytes parse = StartAction.runInitialMigration) := by
  intro storedBytes parse
  refine ⟨?_, ?_, ?_⟩
  · intro r hlen hp
    simp [startDecision, hlen, hp]
  · intro hlen
    have : ¬ storedBytes.length > 0 := by omega
    simp [startDecision, this]
  · intro hp
    by_cases hlen : storedBytes.length > 0
    · simp [startDecision, hlen, hp]
    · simp [startDecision, hlen]

/-- Witness for C8 (amended) at concrete inputs. -/
theorem startDecision_characterization_witness :
    startDecision [42] (fun b => if b = [42] then some { hash := 5, number := 8 } else none)
        = StartAction.resume { hash := 5, number := 8 } ∧
    startDecision [] (fun b => if b = [42] then some { hash := 5, number := 8 } else none)
        = StartAction.runInitialMigration := by
  obtain ⟨h1, h2, _⟩ :=
    startDecision_characterization [42]
      (fun b => if b = [42] then some { hash := 5, number := 8 } else none)
  obtain ⟨_, h2e, _⟩ :=
    startDecision_characterization []
      (fun b => if b = [42] then some { hash := 5, number := 8 } else none)
  exact ⟨h1 _ (by decide) (by decide), h2e rfl⟩

/-! ## The transition-block builder (`migrateHeadAndGenesis`)

`state_migrator.go`: read the head header; if its extra-data is the
`"BEDROCK"` sentinel, return its `{number, time, hash}` with no writes;
otherwise open a state view at `stateRoot`, commit (a content no-op that
returns the canonical root), build the Bedrock header, and write total
difficulty, block, receipts, canonical-hash mapping, the four head markers,
and the rewritten chain config.  Headers and the relevant `rawdb` tables are
embedded explicitly; the Keccak header hash is an abstract injective-enough
encoding `hashHeader` (its only role is to be a fixed function of the
header). -/

/-- `BedrockTransitionBlockExtraData = []byte("BEDROCK")`. -/
def sentinelExtra : Bytes := [66, 69, 68, 82, 79, 67, 75]

/-- The block-header fields the builder reads or writes. -/
structure Header where
  parentHash : Nat
  uncleHash : Nat
  coinbase : Nat
  root : Nat
  txHash : Nat
  receiptHash : Nat
  bloom : Nat
  difficulty : Nat
  number : Nat
  gasLimit : Nat
  gasUsed : Nat
  time : Nat
  extra : Bytes
  mixDigest : Nat
  blockNonce : Nat
  baseFee : Int
deriving Repr, DecidableEq

/-- Modelled from the spec: the header hash (`types.Header.Hash()`, a Keccak
of the RLP-encoded header, library code outside `src/`) as an explicit
function of the header fields.  Nothing below depends on more than it being
a function. -/
def hashHeader (h : Header) : Nat :=
  h.parentHash + 31 * (h.root + 31 * (h.difficulty + 31 * (h.number + 31 *
    (h.time + 31 * (h.gasLimit + 31 * (h.extra.foldl (fun a b => a * 256 + b) 0))))))

/-- The three EIP-1559 scalars copied from the Kroma config shape to the
Optimism config shape. -/
structure ForkParams where
  eip1559Denominator : Nat
  eip1559Elasticity : Nat
  eip1559DenominatorCanyon : Nat
deriving Repr, DecidableEq

/-- The chain-config fields `migrateHeadAndGenesis` rewrites. -/
structure ChainConfig where
  londonBlock : Option Nat
  arrowGlacierBlock : Option Nat
  grayGlacierBlock : Option Nat
  mergeNetsplitBlock : Option Nat
  terminalTotalDifficulty : Option Nat
  terminalTotalDifficultyPassed : Bool
  bedrockBlock : Option Nat
  regolithTime : Option Nat
  kroma : Option ForkParams
  optimism : Option ForkParams
deriving Repr, DecidableEq

/-- The backing store as the builder sees it through `rawdb`: the head
pointers and the per-(hash, number) tables. -/
structure DB where
  headHeaderHash : Nat
  headerNumber : Nat → Option Nat
  headers : Nat → Nat → Option Header
  td : Nat → Nat → Option Nat
  canonicalHash : Nat → Option Nat
  headBlockHash : Nat
  headFastBlockHash : Nat
  finalizedBlockHash : Nat
  receipts : Nat → Nat → Option (List Nat)
  bodyWritten : Nat → Nat → Bool
  chainConfig : Nat → Option ChainConfig

/-- `MigrationResult`. -/
structure MigrationResult where
  transitionHeight : Nat
  transitionTimestamp : Nat
  transitionBlockHash : Nat
deriving Repr, DecidableEq

/-- `params.KromaProtocolVault` (abstract address value). -/
def kromaProtocolVault : Nat := 1096

/-- `L2GenesisBlockGasLimit = 0` (`state_migrator.go` top-level vars). -/
def l2GenesisBlockGasLimit : Nat := 0

/-- `L2OutputOracleStartingTimestamp = 0`. -/
def l2OutputOracleStartingTimestamp : Nat := 0

/-- `InitialBaseFee = int64(0)`. -/
def initialBaseFee : Int := 0

/-- `types.EmptyUncleHash` (abstract value). -/
def emptyUncleHash : Nat := 3

/-- The Bedrock transition header built from the pre-migration head header
`header` at height `num`, with the committed state root `newRoot`. -/
def buildBedrockHeader (header : Header) (num : Nat) (newRoot : Nat) : Header :=
  { parentHash := hashHeader header
    uncleHash := emptyUncleHash
    coinbase := kromaProtocolVault
    root := newRoot
    txHash := emptyRootHash
    receiptHash := emptyRootHash
    bloom := 0
    difficulty := 0
    number := num + 1
    gasLimit := l2GenesisBlockGasLimit
    gasUsed := 0
    time := l2OutputOracleStartingTimestamp
    extra := sentinelExtra
    mixDigest := 0
    blockNonce := 0
    baseFee := initialBaseFee }

/-- The `rawdb` writes of the build branch: `WriteTd` (the block's own
difficulty), `WriteBlock` (header, body, hash→number), `WriteReceipts`
(nil), `WriteCanonicalHash`, and the four head/finalized markers. -/
def writeTransitionBlock (db : DB) (bh : Nat) (hdr : Header) : DB :=
  { db with
    td := fun h n => if h = bh ∧ n = hdr.number then some hdr.difficulty else db.td h n
    headers := fun h n => if h = bh ∧ n = hdr.number then some hdr else db.headers h n
    headerNumber := fun h => if h = bh then some hdr.number else db.headerNumber h
    bodyWritten := fun h n => if h = bh ∧ n = hdr.number then true else db.bodyWritten h n
    receipts := fun h n => if h = bh ∧ n = hdr.number then some [] else db.receipts h n
    canonicalHash := fun n => if n = hdr.number then some bh else db.canonicalHash n
    headBlockHash := bh
    headFastBlockHash := bh
    headHeaderHash := bh
    finalizedBlockHash := bh }

/-- The hard-fork rewrite: London/ArrowGlacier/GrayGlacier/MergeNetsplit and
Bedrock at the transition height, TTD zero and passed, Regolith from time 0,
and the Kroma params copied field-by-field into the Optimism shape. -/
def rewriteChainConfig (cfg : ChainConfig) (k : ForkParams) (n : Nat) : ChainConfig :=
  { cfg with
    londonBlock := some n
    arrowGlacierBlock := some n
    grayGlacierBlock := some n
    mergeNetsplitBlock := some n
    terminalTotalDifficulty := some 0
    terminalTotalDifficultyPassed := true
    bedrockBlock := some n
    regolithTime := some 0
    optimism := some
      { eip1559Denominator := k.eip1559Denominator
        eip1559Elasticity := k.eip1559Elasticity
        eip1559DenominatorCanyon := k.eip1559DenominatorCanyon } }

/-- `rawdb.WriteChainConfig` at the genesis hash. -/
def writeChainConfig (db : DB) (genesisHash : Nat) (cfg : ChainConfig) : DB :=
  { db with
    chainConfig := fun h => if h = genesisHash then some cfg else db.chainConfig h }

/-- The build branch of `migrateHeadAndGenesis` (head header not yet
sealed): build the Bedrock header on top of `header` at height `num`, write
the block, the head markers and the rewritten chain config.  The no-op state
commit returns the canonical root of the opened view, i.e. `stateRoot`
itself.  Fatal paths (`log.Crit`, the `nil`-Kroma-config panic) terminate
the process and are reported as errors. -/
def sealBuild (db : DB) (stateRoot num : Nat) (header : Header) :
    Except String (MigrationResult × DB) :=
  let bedrockHeader := buildBedrockHeader header num stateRoot
  let bh := hashHeader bedrockHeader
  let db1 := writeTransitionBlock db bh bedrockHeader
  let genesisHash := (db1.canonicalHash 0).getD 0
  match db1.chainConfig genesisHash with
  | none => .error "chain config not found"
  | some cfg =>
    match cfg.kroma with
    | none => .error "nil Kroma config"
    | some k =>
      .ok ({ transitionHeight := num + 1,
             transitionTimestamp := bedrockHeader.time,
             transitionBlockHash := bh },
           writeChainConfig db1 genesisHash (rewriteChainConfig cfg k (num + 1)))

/-- `state_migrator.go:migrateHeadAndGenesis`: read the head header, check
the sentinel size, return without writes when the head is already sealed,
otherwise run the build branch. -/
def migrateHeadAndGenesis (db : DB) (stateRoot : Nat) :
    Except String (MigrationResult × DB) :=
  match db.headerNumber db.headHeaderHash with
  | none => .error "cannot find header number"
  | some num =>
  match db.headers db.headHeaderHash num with
  | none => .error "header not found"
  | some header =>
  if sentinelExtra.length > 32 then .error "transition block extradata too long"
  else if header.extra = sentinelExtra then
    .ok ({ transitionHeight := num, transitionTimestamp := header.time,
           transitionBlockHash := db.headHeaderHash }, db)
  else sealBuild db stateRoot num header

theorem writeChainConfig_headHeaderHash (db : DB) (g : Nat) (cfg : ChainConfig) :
    (writeChainConfig db g cfg).headHeaderHash = db.headHeaderHash := rfl

theorem writeChainConfig_headerNumber (db : DB) (g : Nat) (cfg : ChainConfig) :
    (writeChainConfig db g cfg).headerNumber = db.headerNumber := rfl

theorem writeChainConfig_headers (db : DB) (g : Nat) (cfg : ChainConfig) :
    (writeChainConfig db g cfg).headers = db.headers := rfl

theorem writeChainConfig_td (db : DB) (g : Nat) (cfg : ChainConfig) :
    (writeChainConfig db g cfg).td = db.td := rfl

theorem writeTransitionBlock_headerNumber_self (db : DB) (bh : Nat) (hdr : Header) :
    (writeTransitionBlock db bh hdr).headerNumber bh = some hdr.number := by
  simp [writeTransitionBlock]

theorem writeTransitionBlock_headers_self (db : DB) (bh : Nat) (hdr : Header) :
    (writeTransitionBlock db bh hdr).headers bh hdr.number = some hdr := by
  simp [writeTransitionBlock]

theorem writeTransitionBlock_td_self (db : DB) (bh : Nat) (hdr : Header) :
    (writeTransitionBlock db bh hdr).td bh hdr.number = some hdr.difficulty := by
  simp [writeTransitionBlock]

/-- What a successful build branch returns: the result record, and the reads
the next run performs on the mutated store (head pointer, hash→number,
header), plus the total difficulty it persisted at the transition block. -/
theorem sealBuild_ok (db : DB) (stateRoot num : Nat) (header : Header)
    (r : MigrationResult) (db' : DB)
    (h : sealBuild db stateRoot num header = .ok (r, db')) :
    r = { transitionHeight := num + 1,
          transitionTimestamp := (buildBedrockHeader header num stateRoot).time,
          transitionBlockHash := hashHeader (buildBedrockHeader header num stateRoot) } ∧
    db'.headHeaderHash = hashHeader (buildBedrockHeader header num stateRoot) ∧
    db'.headerNumber (hashHeader (buildBedrockHeader header num stateRoot))
      = some (num + 1) ∧
    db'.headers (hashHeader (buildBedrockHeader header num stateRoot)) (num + 1)
      = some (buildBedrockHeader header num stateRoot) ∧
    db'.td (hashHeader (buildBedrockHeader header num stateRoot)) (num + 1) = some 0 := by
  simp only [sealBuild] at h
  split at h
  · cases h
  · rename_i cfg hcfg
    split at h
    · cases h
    · rename_i k hk
      injection h with hp
      have h1 := congrArg Prod.fst hp
      have h2 := congrArg Prod.snd hp
      simp only at h1 h2
      subst h2
      refine ⟨h1.symm, rfl, ?_, ?_, ?_⟩
      · rw [writeChainConfig_headerNumber, writeTransitionBlock_headerNumber_self]
        rfl
      · rw [writeChainConfig_headers]
        exact writeTransitionBlock_headers_self db _ _
      · rw [writeChainConfig_td]
        exact writeTransitionBlock_td_self db _ _

/-! ## Claims C4 and C6 -/

/-- C4: the transition-block builder is idempotent.  When the head header's
extra-data is the `"BEDROCK"` sentinel, it returns the head's
`{number, time, hash}` with the backing store unchanged; and whatever branch
a successful run took, running it again on the resulting store returns the
identical `MigrationResult` and leaves the store untouched. -/
theorem migrateHeadAndGenesis_idempotent :
    (∀ (db : DB) (stateRoot num : Nat) (header : Header),
      db.headerNumber db.headHeaderHash = some num →
      db.headers db.headHeaderHash num = some header →
      header.extra = sentinelExtra →
      migrateHeadAndGenesis db stateRoot =
        .ok ({ transitionHeight := num, transitionTimestamp := header.time,
               transitionBlockHash := db.headHeaderHash }, db)) ∧
    (∀ (db : DB) (stateRoot : Nat) (r : MigrationResult) (db' : DB),
      migrateHeadAndGenesis db stateRoot = .ok (r, db') →
      migrateHeadAndGenesis db' stateRoot = .ok (r, db')) := by
  have hsent : ∀ (db : DB) (stateRoot num : Nat) (header : Header),
      db.headerNumber db.headHeaderHash = some num →
      db.headers db.headHeaderHash num = some header →
      header.extra = sentinelExtra →
      migrateHeadAndGenesis db stateRoot =
        .ok ({ transitionHeight := num, transitionTimestamp := header.time,
               transitionBlockHash := db.headHeaderHash }, db) := by
    intro db sr num header hnum hhdr hext
    simp only [migrateHeadAndGenesis, hnum, hhdr]
    rw [if_neg (by decide), if_pos hext]
  refine ⟨hsent, ?_⟩
  intro db sr r db' hrun
  cases hnum : db.headerNumber db.headHeaderHash with
  | none =>
    simp only [migrateHeadAndGenesis, hnum] at hrun
    cases hrun
  | some num =>
  cases hhdr : db.headers db.headHeaderHash num with
  | none =>
    simp only [migrateHeadAndGenesis, hnum, hhdr] at hrun
    cases hrun
  | some header =>
  by_cases hext : header.extra = sentinelExtra
  · rw [hsent db sr num header hnum hhdr hext] at hrun
    injection hrun with h
    have h1 := congrArg Prod.fst h
    have h2 := congrArg Prod.snd h
    simp only at h1 h2
    rw [← h1, ← h2]
    exact hsent db sr num header hnum hhdr hext
  · simp only [migrateHeadAndGenesis, hnum, hhdr] at hrun
    rw [if_neg (by decide), if_neg hext] at hrun
    obtain ⟨hr, hH, hN, hhd, _⟩ := sealBuild_ok db sr num header r db' hrun
    have hnext := hsent db' sr (num + 1) (buildBedrockHeader header num sr)
      (by rw [hH]; exact hN) (by rw [hH]; exact hhd) rfl
    rw [hnext, hr, hH]

/-- C6 (amended): in the build branch, the total difficulty persisted at
`(T.hash, T.number)` is the transition block's own difficulty, which is
hard-coded zero — not the head header's difficulty. -/
theorem writeTd_writes_zero_difficulty
    (db : DB) (stateRoot num : Nat) (header : Header) (r : MigrationResult)
    (db' : DB)
    (hnum : db.headerNumber db.headHeaderHash = some num)
    (hhdr : db.headers db.headHeaderHash num = some header)
    (hext : header.extra ≠ sentinelExtra)
    (hrun : migrateHeadAndGenesis db stateRoot = .ok (r, db')) :
    db'.td r.transitionBlockHash r.transitionHeight = some 0 := by
  simp only [migrateHeadAndGenesis, hnum, hhdr] at hrun
  rw [if_neg (by decide), if_neg hext] at hrun
  obtain ⟨hr, _, _, _, htd⟩ := sealBuild_ok db stateRoot num header r db' hrun
  rw [hr]
  exact htd

/-! Concrete databases for the transition-block claims. -/

/-- A pre-migration head header with nonzero difficulty `5`. -/
def headerEx : Header :=
  { parentHash := 0, uncleHash := emptyUncleHash, coinbase := 0, root := 3
    txHash := 0, receiptHash := 0, bloom := 0, difficulty := 5, number := 10
    gasLimit := 100, gasUsed := 50, time := 1000, extra := [1, 2]
    mixDigest := 0, blockNonce := 0, baseFee := 7 }

/-- A chain config with a Kroma parameter block. -/
def cfgEx : ChainConfig :=
  { londonBlock := none, arrowGlacierBlock := none, grayGlacierBlock := none
    mergeNetsplitBlock := none, terminalTotalDifficulty := none
    terminalTotalDifficultyPassed := false, bedrockBlock := none
    regolithTime := none
    kroma := some { eip1559Denominator := 10, eip1559Elasticity := 6,
                    eip1559DenominatorCanyon := 250 }
    optimism := none }

/-- An unsealed store: head header `headerEx` at hash `77`, genesis hash
`55`, config `cfgEx` there. -/
def dbEx : DB :=
  { headHeaderHash := 77
    headerNumber := fun h => if h = 77 then some 10 else none
    headers := fun h n => if h = 77 ∧ n = 10 then some headerEx else none
    td := fun h n => if h = 77 ∧ n = 10 then some 5 else none
    canonicalHash := fun n => if n = 0 then some 55 else
      if n = 10 then some 77 else none
    headBlockHash := 77, headFastBlockHash := 77, finalizedBlockHash := 77
    receipts := fun _ _ => none
    bodyWritten := fun _ _ => false
    chainConfig := fun h => if h = 55 then some cfgEx else none }

/-- The Bedrock header the build branch derives from `headerEx` with state
root `3`. -/
def bedrockHeaderEx : Header := buildBedrockHeader headerEx 10 3

/-- The `MigrationResult` of sealing `dbEx` at state root `3`. -/
def resultEx : MigrationResult :=
  { transitionHeight := 11, transitionTimestamp := 0
    transitionBlockHash := hashHeader bedrockHeaderEx }

/-- The store after sealing `dbEx` at state root `3`. -/
def dbSealedEx : DB :=
  writeChainConfig
    (writeTransitionBlock dbEx (hashHeader bedrockHeaderEx) bedrockHeaderEx)
    55
    (rewriteChainConfig cfgEx
      { eip1559Denominator := 10, eip1559Elasticity := 6,
        eip1559DenominatorCanyon := 250 } 11)

/-- C6 fails on the code: sealing `dbEx`, whose head header carries
difficulty `5`, persists total difficulty `0` (the transition block's own
difficulty) at `(T.hash, T.number)` — not the head's `5`. -/
theorem writeTd_not_head_difficulty_cex :
    headerEx.difficulty = 5 ∧
    dbEx.headers dbEx.headHeaderHash 10 = some headerEx ∧
    migrateHeadAndGenesis dbEx 3 = .ok (resultEx, dbSealedEx) ∧
    dbSealedEx.td resultEx.transitionBlockHash resultEx.transitionHeight = some 0 ∧
    (some 0 : Option Nat) ≠ some 5 := by
  refine ⟨rfl, rfl, rfl, rfl, by decide⟩

/-- Witness for C6 (amended) at the concrete store `dbEx`. -/
theorem writeTd_writes_zero_difficulty_witness :
    dbSealedEx.td resultEx.transitionBlockHash resultEx.transitionHeight
      = some 0 :=
  writeTd_writes_zero_difficulty dbEx 3 10 headerEx resultEx dbSealedEx
    rfl rfl (by decide) rfl

/-- An already-sealed head header: extra-data is the sentinel. -/
def headerSealedEx : Header :=
  { parentHash := 4, uncleHash := emptyUncleHash, coinbase := 0, root := 6
    txHash := emptyRootHash, receiptHash := emptyRootHash, bloom := 0
    difficulty := 0, number := 4, gasLimit := 0, gasUsed := 0, time := 123
    extra := sentinelExtra, mixDigest := 0, blockNonce := 0, baseFee := 0 }

/-- A store whose head header is `headerSealedEx` at hash `9`. -/
def dbSentinelEx : DB :=
  { headHeaderHash := 9
    headerNumber := fun h => if h = 9 then some 4 else none
    headers := fun h n => if h = 9 ∧ n = 4 then some headerSealedEx else none
    td := fun _ _ => none
    canonicalHash := fun n => if n = 0 then some 50 else none
    headBlockHash := 9, headFastBlockHash := 9, finalizedBlockHash := 9
    receipts := fun _ _ => none
    bodyWritten := fun _ _ => false
    chainConfig := fun _ => none }

/-- Witness for C4 at the concrete sealed store: the builder returns the
head's `{number, time, hash}` and leaves the store exactly as it was. -/
theorem migrateHeadAndGenesis_idempotent_witness :
    migrateHeadAndGenesis dbSentinelEx 0 =
      .ok ({ transitionHeight := 4, transitionTimestamp := 123,
             transitionBlockHash := 9 }, dbSentinelEx) :=
  migrateHeadAndGenesis_idempotent.1 dbSentinelEx 0 4 headerSealedEx rfl rfl rfl

end StateMigration
